import Mathlib

/-!
# diploApp: session and authorization gate

A shallow embedding of `src/js/diplo.js`: the `Session` service, `AuthService`,
`AuthInterceptor` and the `$stateChangeStart` handler, followed by theorems about them.

JavaScript values are embedded as `JSVal`. Numbers are integers (fractions, `NaN` and
signed zero are left out), and an object is known by its reference only. On this
universe the strict equality `===` used by `Array.prototype.indexOf` and by `switch`
coincides with equality of `JSVal`.
-/

namespace Diplo

/-! ## JavaScript values -/

/-- The JavaScript values that session fields, roles and status codes can hold. -/
inductive JSVal where
  | undefined
  | null
  | bool (b : Bool)
  | num (n : Int)
  | str (s : String)
  | obj (ref : Nat)
  deriving DecidableEq, Repr

/-- The exceptions that the modelled code can raise. -/
inductive JSError where
  | ReferenceError
  | TypeError
  deriving DecidableEq, Repr

/-- How the evaluation of an expression or a call ends: with a value, or by throwing. -/
inductive Completion (α : Type) where
  | normal (value : α)
  | throw (error : JSError)
  deriving DecidableEq, Repr

/-- The conversion `ToBoolean`, as applied by `!` and `&&`. -/
def JSVal.truthy : JSVal → Bool
  | .undefined => false
  | .null => false
  | .bool b => b
  | .num n => n != 0
  | .str s => s != ""
  | .obj _ => true

/-- The search loop of `Array.prototype.indexOf`: the first index at or after `i`
(the index of the head of the list) whose element is strictly equal to `v`, or `-1`. -/
def indexOfFrom (v : JSVal) : List JSVal → Int → Int
  | [], _ => -1
  | x :: xs, i => if x = v then i else indexOfFrom v xs (i + 1)

/-- The call `xs.indexOf(v)` on a JavaScript array. -/
def indexOf (xs : List JSVal) (v : JSVal) : Int :=
  indexOfFrom v xs 0

/-! ## Constants -/

namespace AUTH_EVENTS

def loginSuccess : String := "auth-login-success"
def loginFailed : String := "auth-login-failed"
def logoutSuccess : String := "auth-logout-success"
def sessionTimeout : String := "auth-session-timeout"
def notAuthenticated : String := "auth-not-authenticated"
def notAuthorized : String := "auth-not-authorized"

end AUTH_EVENTS

namespace USER_ROLES

def all : JSVal := .str "*"
def admin : JSVal := .str "admin"
def editor : JSVal := .str "editor"
def guest : JSVal := .str "guest"

end USER_ROLES

/-! ## Session -/

/-- The three properties of the `Session` service object. -/
structure Session where
  id : JSVal
  userId : JSVal
  userRole : JSVal
  deriving DecidableEq, Repr

/-- The method `Session.create(sessionId, userId, userRole)`; `this` is passed as state. -/
def Session.create (this : Session) (sessionId userId userRole : JSVal) : Session :=
  { this with id := sessionId, userId := userId, userRole := userRole }

/-- The method `Session.destroy()`. -/
def Session.destroy (this : Session) : Session :=
  { this with id := .null, userId := .null, userRole := .null }

/-- The `Session` service right after its constructor ran: no property assigned yet. -/
def Session.fresh : Session :=
  { id := .undefined, userId := .undefined, userRole := .undefined }

/-- The first `run` block: `Session.create(null, null, USER_ROLES.guest)`. -/
def bootstrap (session : Session) : Session :=
  session.create .null .null USER_ROLES.guest

/-- The session state once the application has bootstrapped. -/
def Session.initial : Session :=
  bootstrap Session.fresh

/-! ## AuthService -/

/-- The argument of `isAuthorized`: an array of values, or a single value that is no array. -/
inductive RolesArg where
  | value (v : JSVal)
  | array (xs : List JSVal)
  deriving DecidableEq, Repr

/-- The array that `isAuthorized` searches once its first statement has run:
`if (!angular.isArray(authorizedRoles)) authorizedRoles = [authorizedRoles]`. -/
def RolesArg.toArray : RolesArg → List JSVal
  | .value v => [v]
  | .array xs => xs

/-- The method `AuthService.isAuthenticated()`: `!!Session.userId`. -/
def AuthService.isAuthenticated (session : Session) : Bool :=
  !(!session.userId.truthy)

/-- The method `AuthService.isAuthorized(authorizedRoles)`. -/
def AuthService.isAuthorized (session : Session) (authorizedRoles : RolesArg) : Bool :=
  let authorizedRoles := authorizedRoles.toArray
  if indexOf authorizedRoles USER_ROLES.all != -1 then
    true
  else
    AuthService.isAuthenticated session && indexOf authorizedRoles session.userRole != -1

/-! ## Effects -/

/-- A failed response as handed to `responseError` by `$http`. -/
structure Response where
  status : JSVal
  statusText : String
  data : JSVal
  deriving DecidableEq, Repr

/-- A value passed as an argument of `$broadcast`: a plain value or a response object. -/
inductive Arg where
  | val (v : JSVal)
  | object (r : Response)
  deriving DecidableEq, Repr

/-- The effects on the surrounding framework, in the order they happen. No listener of
an authentication event is registered in the source, so a broadcast is only recorded. -/
inductive Effect where
  | preventDefault
  | broadcast (name : String) (args : List Arg)
  deriving DecidableEq, Repr

/-- The run of a handler: the effects it performed and how it completed. -/
structure Run (α : Type) where
  effects : List Effect
  completion : Completion α
  deriving DecidableEq, Repr

/-! ## AuthInterceptor -/

/-- The promise returned by `$q.reject(reason)`. -/
structure Rejected where
  reason : Response
  deriving DecidableEq, Repr

/-- Evaluation of an identifier that is no parameter and no local variable: `scope` is
what the enclosing scopes bind it to, `none` when no scope declares it. -/
def lookup (scope : Option Arg) : Completion Arg :=
  match scope with
  | none => .throw .ReferenceError
  | some a => .normal a

/-- The property read `x.status`. -/
def Arg.getStatus : Arg → Completion JSVal
  | .val .undefined => .throw .TypeError
  | .val .null => .throw .TypeError
  | .val _ => .normal .undefined
  | .object r => .normal r.status

/-- The method `AuthInterceptor.responseError(response)`. Its body reads the identifier
`reponse`, which is not the parameter `response`; the argument `scope` is the binding of
that identifier in the enclosing scopes. The `switch` compares with `===`. -/
def AuthInterceptor.responseError (scope : Option Arg) (response : Response) :
    Run Rejected :=
  match lookup scope with
  | .throw e => { effects := [], completion := .throw e }
  | .normal reponse =>
    match reponse.getStatus with
    | .throw e => { effects := [], completion := .throw e }
    | .normal status =>
      if status = .num 401 then
        { effects := [.broadcast AUTH_EVENTS.notAuthenticated [reponse]],
          completion := .normal { reason := response } }
      else if status = .num 403 then
        { effects := [.broadcast AUTH_EVENTS.notAuthorized [reponse]],
          completion := .normal { reason := response } }
      else if status = .num 419 then
        { effects := [.broadcast AUTH_EVENTS.sessionTimeout [.object response]],
          completion := .normal { reason := response } }
      else
        { effects := [], completion := .normal { reason := response } }

/-- The scope of this program: neither `diplo.js` nor the handler declares `reponse`. -/
def programScope : Option Arg := none

/-! ## Navigation guard -/

/-- The custom data of a UI state. A state that declares no `authorizedRoles` has
`RolesArg.value JSVal.undefined` here, which is what reading the property yields. -/
structure StateData where
  authorizedRoles : RolesArg
  deriving DecidableEq, Repr

/-- The target state `next` of a navigation; `data` is `none` when it declares none. -/
structure UIState where
  url : String
  templateUrl : String
  data : Option StateData
  deriving DecidableEq, Repr

/-- The run of the `$stateChangeStart` handler: the session afterwards, the effects
performed and how the handler completed. -/
structure GuardRun where
  session : Session
  effects : List Effect
  completion : Completion Unit
  deriving DecidableEq, Repr

/-- The listener registered on `$stateChangeStart` by the second `run` block. -/
def stateChangeStart (session : Session) (next : UIState) : GuardRun :=
  match next.data with
  | none => { session := session, effects := [], completion := .throw .TypeError }
  | some data =>
    let authorizedRoles := data.authorizedRoles
    if !AuthService.isAuthorized session authorizedRoles then
      if AuthService.isAuthenticated session then
        { session := session,
          effects := [.preventDefault, .broadcast AUTH_EVENTS.notAuthorized []],
          completion := .normal () }
      else
        { session := session,
          effects := [.preventDefault, .broadcast AUTH_EVENTS.notAuthenticated []],
          completion := .normal () }
    else
      { session := session, effects := [], completion := .normal () }

/-- The state `dashboard` of the route configuration. -/
def dashboard : UIState :=
  { url := "/dashboard", templateUrl := "dashboard/index.html",
    data := some { authorizedRoles := .array [USER_ROLES.admin, USER_ROLES.editor] } }

/-- The state `login` of the route configuration. -/
def login : UIState :=
  { url := "/login", templateUrl := "partials/login.html",
    data := some { authorizedRoles := .array [USER_ROLES.all] } }

/-! ## Lemmas on the definitions -/

/-- The search of `indexOf` answers `-1` exactly when no element equals the value. -/
theorem indexOfFrom_eq_neg_one_iff (v : JSVal) (xs : List JSVal) (i : Int) (hi : 0 ≤ i) :
    indexOfFrom v xs i = -1 ↔ v ∉ xs := by
  induction xs generalizing i with
  | nil => simp [indexOfFrom]
  | cons x xs ih =>
    unfold indexOfFrom
    by_cases hx : x = v
    · subst hx
      simp
      omega
    · have hrec := ih (i + 1) (by omega)
      have hne : ¬ v = x := fun h => hx h.symm
      simp [hx, hne, hrec]

/-- The test `xs.indexOf(v) !== -1` is membership of `v` in `xs`. -/
theorem indexOf_bne_iff (xs : List JSVal) (v : JSVal) :
    (indexOf xs v != -1) = true ↔ v ∈ xs := by
  have h := indexOfFrom_eq_neg_one_iff v xs 0 (le_refl 0)
  unfold indexOf
  rw [bne_iff_ne, Ne, h, not_not]

/-- The double negation `!!x` is the truthiness of `x`. -/
theorem isAuthenticated_eq_truthy (session : Session) :
    AuthService.isAuthenticated session = session.userId.truthy := by
  simp [AuthService.isAuthenticated]

/-! ## Role matching -/

/-- C1: when the array `authorizedRoles` contains the wildcard role, `isAuthorized`
returns true whatever the session holds. -/
theorem isAuthorized_wildcard (session : Session) (authorizedRoles : List JSVal)
    (h : USER_ROLES.all ∈ authorizedRoles) :
    AuthService.isAuthorized session (.array authorizedRoles) = true := by
  have hidx := (indexOf_bne_iff authorizedRoles USER_ROLES.all).mpr h
  simp only [AuthService.isAuthorized, RolesArg.toArray, hidx, if_true]

/-- The wildcard admits the bootstrapped guest session to the `login` state. -/
theorem isAuthorized_wildcard_witness :
    USER_ROLES.all ∈ [USER_ROLES.all] ∧
      AuthService.isAuthorized Session.initial (.array [USER_ROLES.all]) = true :=
  ⟨by decide, isAuthorized_wildcard Session.initial [USER_ROLES.all] (by decide)⟩

/-- C2: when the array `authorizedRoles` does not contain the wildcard role,
`isAuthorized` returns true exactly when `isAuthenticated()` is true and
`Session.userRole` is an element of the array. -/
theorem isAuthorized_iff_of_no_wildcard (session : Session) (authorizedRoles : List JSVal)
    (h : USER_ROLES.all ∉ authorizedRoles) :
    AuthService.isAuthorized session (.array authorizedRoles) = true ↔
      (AuthService.isAuthenticated session = true ∧ session.userRole ∈ authorizedRoles) := by
  have hidx : ¬ (indexOf authorizedRoles USER_ROLES.all != -1) = true :=
    fun hc => h ((indexOf_bne_iff authorizedRoles USER_ROLES.all).mp hc)
  simp only [AuthService.isAuthorized, RolesArg.toArray, hidx]
  simp only [Bool.false_eq_true, if_false, Bool.and_eq_true, indexOf_bne_iff]

/-- A session logged in with the role `guest` is authenticated, and the `dashboard`
roles reject it because `guest` is not among them. -/
theorem isAuthorized_iff_of_no_wildcard_witness :
    USER_ROLES.all ∉ [USER_ROLES.admin, USER_ROLES.editor] ∧
      (AuthService.isAuthorized
          (Session.initial.create (.str "s1") (.str "u1") USER_ROLES.guest)
          (.array [USER_ROLES.admin, USER_ROLES.editor]) = true ↔
        (AuthService.isAuthenticated
            (Session.initial.create (.str "s1") (.str "u1") USER_ROLES.guest) = true ∧
          (Session.initial.create (.str "s1") (.str "u1") USER_ROLES.guest).userRole ∈
            [USER_ROLES.admin, USER_ROLES.editor])) :=
  ⟨by decide,
    isAuthorized_iff_of_no_wildcard
      (Session.initial.create (.str "s1") (.str "u1") USER_ROLES.guest)
      [USER_ROLES.admin, USER_ROLES.editor] (by decide)⟩

/-! ## Navigation guard -/

/-- C3: on a target that declares `data.authorizedRoles`, the guard completes normally
and leaves the session as it was; when `isAuthorized` is true it performs no effect, and
when it is false it calls `preventDefault` and broadcasts one event, `notAuthorized` if
`isAuthenticated()` is true and `notAuthenticated` otherwise. -/
theorem stateChangeStart_outcome (session : Session) (url templateUrl : String)
    (authorizedRoles : RolesArg) :
    stateChangeStart session
        { url := url, templateUrl := templateUrl,
          data := some { authorizedRoles := authorizedRoles } } =
      if AuthService.isAuthorized session authorizedRoles = true then
        { session := session, effects := [], completion := .normal () }
      else
        { session := session,
          effects :=
            [.preventDefault,
              .broadcast
                (if AuthService.isAuthenticated session = true then AUTH_EVENTS.notAuthorized
                  else AUTH_EVENTS.notAuthenticated) []],
          completion := .normal () } := by
  unfold stateChangeStart
  cases hz : AuthService.isAuthorized session authorizedRoles <;>
    cases ha : AuthService.isAuthenticated session <;> simp [hz, ha]

/-! ## Response classification -/

/-- C4: in the scope of this program, `responseError` on a response with status 401
broadcasts nothing and throws a `ReferenceError`. -/
theorem responseError_401_silent :
    AuthInterceptor.responseError programScope
        { status := .num 401, statusText := "Unauthorized", data := .null } =
      { effects := [], completion := .throw .ReferenceError } := by
  decide

/-- C5: in the scope of this program, `responseError` throws a `ReferenceError` for
every response, so no rejection carrying the response is returned. -/
theorem responseError_throws (response : Response) :
    (AuthInterceptor.responseError programScope response).completion =
        .throw .ReferenceError ∧
      (AuthInterceptor.responseError programScope response).completion ≠
        .normal { reason := response } := by
  constructor
  · rfl
  · intro h
    cases h

/-- C10: `responseError` switches on the status of the identifier `reponse`, not of the
response passed in. In the scope of this program a response with status 403 is therefore
never inspected: nothing is broadcast and a `ReferenceError` is thrown. With `reponse`
bound to another object whose status is 401, a response with status 500 makes it
broadcast `notAuthenticated` carrying that other object. -/
theorem responseError_reads_other_variable :
    AuthInterceptor.responseError programScope
        { status := .num 403, statusText := "Forbidden", data := .null } =
      { effects := [], completion := .throw .ReferenceError } ∧
    AuthInterceptor.responseError
        (some (.object { status := .num 401, statusText := "stale", data := .null }))
        { status := .num 500, statusText := "Internal Server Error", data := .null } =
      { effects :=
          [.broadcast AUTH_EVENTS.notAuthenticated
            [.object { status := .num 401, statusText := "stale", data := .null }]],
        completion :=
          .normal
            { reason :=
                { status := .num 500, statusText := "Internal Server Error",
                  data := .null } } } := by
  decide

/-! ## Session life cycle -/

/-- C6, as stated, fails: the user id `0` is present (neither `null` nor `undefined`)
and `admin` is not the guest role, yet after `Session.create("s1", 0, "admin")` the call
`isAuthenticated()` returns false. -/
theorem create_present_userId_not_authenticated :
    (JSVal.num 0 ≠ .null ∧ JSVal.num 0 ≠ .undefined ∧ USER_ROLES.admin ≠ USER_ROLES.guest) ∧
      ¬ (AuthService.isAuthenticated
            (Session.initial.create (.str "s1") (.num 0) USER_ROLES.admin) = true ∧
          (Session.initial.create (.str "s1") (.num 0) USER_ROLES.admin).userRole =
            USER_ROLES.admin) := by
  decide

/-- C6, amended: for every session id, every truthy user id and every non-guest role,
after `Session.create(sessionId, userId, role)` the call `isAuthenticated()` returns true
and `Session.userRole` equals `role`. -/
theorem create_truthy_userId_authenticated (session : Session)
    (sessionId userId role : JSVal) (huser : userId.truthy = true)
    (_hrole : role ≠ USER_ROLES.guest) :
    AuthService.isAuthenticated (session.create sessionId userId role) = true ∧
      (session.create sessionId userId role).userRole = role := by
  refine ⟨?_, rfl⟩
  rw [isAuthenticated_eq_truthy]
  exact huser

/-- A login as user `u1` with the role `editor` on the bootstrapped session. -/
theorem create_truthy_userId_authenticated_witness :
    ((JSVal.str "u1").truthy = true ∧ USER_ROLES.editor ≠ USER_ROLES.guest) ∧
      (AuthService.isAuthenticated
          (Session.initial.create (.str "s1") (.str "u1") USER_ROLES.editor) = true ∧
        (Session.initial.create (.str "s1") (.str "u1") USER_ROLES.editor).userRole =
          USER_ROLES.editor) :=
  ⟨⟨by decide, by decide⟩,
    create_truthy_userId_authenticated Session.initial (.str "s1") (.str "u1")
      USER_ROLES.editor (by decide) (by decide)⟩

/-- C7, as stated, fails: after `Session.destroy()` on a logged-in session the role is
not the guest role. -/
theorem destroy_userRole_ne_guest :
    ((Session.initial.create (.str "s1") (.str "u1") USER_ROLES.admin).destroy).userRole ≠
      USER_ROLES.guest := by
  decide

/-- C7, amended: for every session state, after `Session.destroy()` the session id, the
user id and the role are all `null`, and `isAuthenticated()` returns false. -/
theorem destroy_clears (session : Session) :
    session.destroy.id = .null ∧ session.destroy.userId = .null ∧
      session.destroy.userRole = .null ∧
      AuthService.isAuthenticated session.destroy = false := by
  refine ⟨rfl, rfl, rfl, rfl⟩

/-- C8, as stated, fails: `Session.create("s1", "u1", "admin")` followed by
`Session.destroy()` does not give back the state set up at bootstrap. -/
theorem create_destroy_ne_initial :
    (Session.initial.create (.str "s1") (.str "u1") USER_ROLES.admin).destroy ≠
      bootstrap Session.fresh := by
  decide

/-- C8, amended: `Session.create` followed by `Session.destroy()` leaves the id and the
user id equal to those of the bootstrapped state and the role `null` instead of guest;
`isAuthenticated` and `isAuthorized` answer on it as they do on the bootstrapped state. -/
theorem create_destroy_roundtrip (session : Session) (sessionId userId role : JSVal) :
    (session.create sessionId userId role).destroy =
        { id := .null, userId := .null, userRole := .null } ∧
      (session.create sessionId userId role).destroy.id = (bootstrap Session.fresh).id ∧
      (session.create sessionId userId role).destroy.userId =
        (bootstrap Session.fresh).userId ∧
      AuthService.isAuthenticated (session.create sessionId userId role).destroy =
        AuthService.isAuthenticated (bootstrap Session.fresh) ∧
      ∀ authorizedRoles : RolesArg,
        AuthService.isAuthorized (session.create sessionId userId role).destroy
            authorizedRoles =
          AuthService.isAuthorized (bootstrap Session.fresh) authorizedRoles := by
  refine ⟨rfl, rfl, rfl, rfl, ?_⟩
  intro authorizedRoles
  have h1 : AuthService.isAuthenticated (session.create sessionId userId role).destroy =
      false := rfl
  have h2 : AuthService.isAuthenticated (bootstrap Session.fresh) = false := rfl
  simp only [AuthService.isAuthorized, h1, h2, Bool.false_and]

/-! ## Empty role lists -/

/-- C9, as stated, fails: on the bootstrapped session `isAuthorized([])` returns false,
and the guard on a target with `authorizedRoles = []` completes normally after cancelling
the navigation and broadcasting `notAuthenticated`; no error is signalled. -/
theorem empty_roles_no_error :
    AuthService.isAuthorized Session.initial (.array []) = false ∧
      stateChangeStart Session.initial
          { url := "/empty", templateUrl := "empty.html",
            data := some { authorizedRoles := .array [] } } =
        { session := Session.initial,
          effects := [.preventDefault, .broadcast AUTH_EVENTS.notAuthenticated []],
          completion := .normal () } ∧
      (stateChangeStart Session.initial
          { url := "/empty", templateUrl := "empty.html",
            data := some { authorizedRoles := .array [] } }).completion ≠
        .throw .TypeError ∧
      (stateChangeStart Session.initial
          { url := "/empty", templateUrl := "empty.html",
            data := some { authorizedRoles := .array [] } }).completion ≠
        .throw .ReferenceError := by
  decide

/-- C9, amended: for every session state `isAuthorized([])` returns false, and the guard
on a target with `authorizedRoles = []` completes normally, cancels the navigation and
broadcasts one event, `notAuthorized` if `isAuthenticated()` is true and
`notAuthenticated` otherwise, as for any unmet requirement. -/
theorem empty_roles_blocked (session : Session) (url templateUrl : String) :
    AuthService.isAuthorized session (.array []) = false ∧
      stateChangeStart session
          { url := url, templateUrl := templateUrl,
            data := some { authorizedRoles := .array [] } } =
        { session := session,
          effects :=
            [.preventDefault,
              .broadcast
                (if AuthService.isAuthenticated session = true then AUTH_EVENTS.notAuthorized
                  else AUTH_EVENTS.notAuthenticated) []],
          completion := .normal () } := by
  have hz : AuthService.isAuthorized session (.array []) = false := by
    simp [AuthService.isAuthorized, RolesArg.toArray, indexOf, indexOfFrom]
  refine ⟨hz, ?_⟩
  unfold stateChangeStart
  cases ha : AuthService.isAuthenticated session <;> simp [hz, ha]

end Diplo
